import Mathlib

/-!
Verification of the GPReplicator Gitee API client (`gpreplicator/GPReplicator.py`).

This file gives a shallow embedding of the `GiteeTransport` class: the JSON
decoder `_ParseJSON`, the retrying HTTP helper `SendAPIRequest`, and the eight
resource accessors (`Files`, `GetFile`, `Issues`, `Milestones`, `Releases`,
`Tags`, `Branches`, `Repositories`).  HTTP traffic is modelled by an oracle
`server : Nat → HTTPResponse` giving the response to the k-th request issued;
observable effects (number of requests, sleeps between retries, file writes)
are returned explicitly.  Python exceptions are modelled by `PyErr`; the
bounded loop of `SendAPIRequest` carries a fuel parameter because the source
loop does not terminate when a server keeps answering with a status ≥ 600
(`requests.Response.__bool__` is `status_code < 400`, and only the 5xx branch
increments the loop counter).
-/

set_option maxRecDepth 4096

/-- Decoded JSON values as produced by Python's `json.loads`.  Numeric
literals keep their lexeme: no method of the source ever computes with a
numeric JSON value (they are only logged), so the textual form is enough. -/
inductive JSON where
  | null
  | bool (b : Bool)
  | num (lexeme : String)
  | str (s : String)
  | arr (items : List JSON)
  | obj (fields : List (String × JSON))
deriving Repr

/-- Python exceptions that the modelled code can raise.  The first two model
the bare `Exception(...)` raises of the source; the spec's taxonomy names them
`InvalidArgument` (message "Incorrect value") and `MissingConfiguration`
(message "Some parameters are required"). -/
inductive PyErr where
  | invalidArgument (msg : String)
  | missingConfiguration (msg : String)
  | attributeError (msg : String)
  | keyError (key : String)
  | typeError (msg : String)
  | valueError (msg : String)
  | binasciiError (msg : String)
  | unicodeDecodeError (msg : String)
deriving Repr, DecidableEq

/-- Python values that flow into `_ParseJSON` as its `rawData` argument:
response text (a string) in normal operation, but callers may pass an
already-structured value, a number or `None`. -/
inductive PyVal where
  | none
  | str (s : String)
  | int (n : Int)
  | bool (b : Bool)
  | list (xs : List Int)
deriving Repr, DecidableEq

/-- Python truthiness of a `PyVal` (`if rawData:`). -/
def pyTruthy : PyVal → Bool
  | .none => false
  | .str s => !s.isEmpty
  | .int n => n != 0
  | .bool b => b
  | .list xs => !xs.isEmpty

/-- JSON whitespace as accepted by Python's `json` module. -/
def isJsonWs (c : Char) : Bool :=
  c = ' ' || c = '\t' || c = '\n' || c = '\x0d'

def skipWs : List Char → List Char
  | [] => []
  | c :: cs => if isJsonWs c then skipWs cs else c :: cs

def hexDigitVal (c : Char) : Option Nat :=
  if '0' ≤ c ∧ c ≤ '9' then some (c.toNat - 48)
  else if 'a' ≤ c ∧ c ≤ 'f' then some (c.toNat - 87)
  else if 'A' ≤ c ∧ c ≤ 'F' then some (c.toNat - 55)
  else none

/-- Body of a JSON string literal (the opening quote already consumed).
Returns the decoded characters and the input remaining after the closing
quote.  Fuel decreases on every consumed character. -/
def parseStrBody : Nat → List Char → Option (List Char × List Char)
  | 0, _ => none
  | _, [] => none
  | fuel + 1, c :: rest =>
    if c = '"' then some ([], rest)
    else if c = '\\' then
      match rest with
      | [] => none
      | e :: r =>
        let cont (ch : Char) (r2 : List Char) : Option (List Char × List Char) :=
          match parseStrBody fuel r2 with
          | some (cs, r3) => some (ch :: cs, r3)
          | none => none
        if e = '"' then cont '"' r
        else if e = '\\' then cont '\\' r
        else if e = '/' then cont '/' r
        else if e = 'b' then cont (Char.ofNat 8) r
        else if e = 'f' then cont (Char.ofNat 12) r
        else if e = 'n' then cont '\n' r
        else if e = 'r' then cont (Char.ofNat 13) r
        else if e = 't' then cont '\t' r
        else if e = 'u' then
          match r with
          | h1 :: h2 :: h3 :: h4 :: r2 =>
            match hexDigitVal h1, hexDigitVal h2, hexDigitVal h3, hexDigitVal h4 with
            | some a, some b, some c2, some d =>
              cont (Char.ofNat (((a * 16 + b) * 16 + c2) * 16 + d)) r2
            | _, _, _, _ => none
          | _ => none
        else none
    else if c.toNat < 32 then none
    else
      match parseStrBody fuel rest with
      | some (cs, r3) => some (c :: cs, r3)
      | none => none

def isDigitChar (c : Char) : Bool := '0' ≤ c ∧ c ≤ '9'

/-- Longest prefix of decimal digits. -/
def takeDigits : List Char → List Char × List Char
  | [] => ([], [])
  | c :: cs =>
    if isDigitChar c then
      let (ds, rest) := takeDigits cs
      (c :: ds, rest)
    else ([], c :: cs)

/-- Optional fraction and exponent after the integer part of a JSON number. -/
def parseFracExp (intPart : List Char) (cs : List Char) : Option (List Char × List Char) :=
  let (withFrac, afterFrac) :=
    match cs with
    | '.' :: r =>
      match takeDigits r with
      | ([], _) => ([], cs)
      | (ds, r2) => (intPart ++ '.' :: ds, r2)
    | _ => ([], cs)
  let (lex1, cs1) := if withFrac.isEmpty then (intPart, afterFrac) else (withFrac, afterFrac)
  if (withFrac.isEmpty && afterFrac ≠ cs) then none
  else
    match cs1 with
    | e :: r =>
      if e = 'e' || e = 'E' then
        let (sgn, r2) :=
          match r with
          | s :: r3 => if s = '+' || s = '-' then ([s], r3) else ([], r)
          | [] => ([], r)
        match takeDigits r2 with
        | ([], _) => none
        | (ds, r4) => some (lex1 ++ e :: (sgn ++ ds), r4)
      else some (lex1, cs1)
    | [] => some (lex1, cs1)

/-- JSON number starting at the head of the input (grammar of RFC 8259 as
enforced by Python's `json.loads`: no leading zeros, no bare `.`). -/
def parseNum (cs : List Char) : Option (List Char × List Char) :=
  let (neg, cs1) :=
    match cs with
    | '-' :: r => (['-'], r)
    | _ => ([], cs)
  match cs1 with
  | c :: r =>
    if c = '0' then parseFracExp (neg ++ ['0']) r
    else if isDigitChar c then
      let (ds, r2) := takeDigits r
      parseFracExp (neg ++ c :: ds) r2
    else none
  | [] => none

/-- Insert a key into an object under Python `dict` semantics: a duplicate
key keeps its position and takes the new value. -/
def dictInsert (fields : List (String × JSON)) (k : String) (v : JSON) :
    List (String × JSON) :=
  if fields.any (fun p => p.1 = k) then
    fields.map (fun p => if p.1 = k then (k, v) else p)
  else fields ++ [(k, v)]

mutual

/-- One JSON value, leading whitespace allowed. -/
def parseVal : Nat → List Char → Option (JSON × List Char)
  | 0, _ => none
  | fuel + 1, cs =>
    match skipWs cs with
    | [] => none
    | c :: rest =>
      if c = 'n' then
        match rest with
        | 'u' :: 'l' :: 'l' :: r => some (.null, r)
        | _ => none
      else if c = 't' then
        match rest with
        | 'r' :: 'u' :: 'e' :: r => some (.bool true, r)
        | _ => none
      else if c = 'f' then
        match rest with
        | 'a' :: 'l' :: 's' :: 'e' :: r => some (.bool false, r)
        | _ => none
      else if c = '"' then
        match parseStrBody (fuel + 1) rest with
        | some (body, r) => some (.str (String.mk body), r)
        | none => none
      else if c = '-' || isDigitChar c then
        match parseNum (c :: rest) with
        | some (lex, r) => some (.num (String.mk lex), r)
        | none => none
      else if c = '[' then
        match skipWs rest with
        | ']' :: r => some (.arr [], r)
        | _ =>
          match parseElems fuel rest with
          | some (xs, r) => some (.arr xs, r)
          | none => none
      else if c = '\x7b' then
        match skipWs rest with
        | '\x7d' :: r => some (.obj [], r)
        | _ =>
          match parseMembers fuel rest with
          | some (fs, r) => some (.obj (fs.foldl (fun acc p => dictInsert acc p.1 p.2) []), r)
          | none => none
      else none

/-- Comma-separated array elements up to the closing bracket. -/
def parseElems : Nat → List Char → Option (List JSON × List Char)
  | 0, _ => none
  | fuel + 1, cs =>
    match parseVal fuel cs with
    | none => none
    | some (v, r) =>
      match skipWs r with
      | ',' :: r2 =>
        match parseElems fuel r2 with
        | some (xs, r3) => some (v :: xs, r3)
        | none => none
      | ']' :: r2 => some ([v], r2)
      | _ => none

/-- Comma-separated object members up to the closing brace. -/
def parseMembers : Nat → List Char → Option (List (String × JSON) × List Char)
  | 0, _ => none
  | fuel + 1, cs =>
    match skipWs cs with
    | '"' :: r =>
      match parseStrBody fuel r with
      | none => none
      | some (kcs, r2) =>
        match skipWs r2 with
        | ':' :: r3 =>
          match parseVal fuel r3 with
          | none => none
          | some (v, r4) =>
            match skipWs r4 with
            | ',' :: r5 =>
              match parseMembers fuel r5 with
              | some (fs, r6) => some ((String.mk kcs, v) :: fs, r6)
              | none => none
            | '\x7d' :: r5 => some ([(String.mk kcs, v)], r5)
            | _ => none
        | _ => none
    | _ => none

end

/-- Model of `json.loads` on a string argument: parse one value and require
only whitespace after it. -/
def jsonLoadsStr (s : String) : Except PyErr JSON :=
  let cs := s.data
  match parseVal (2 * cs.length + 2) cs with
  | some (v, rest) =>
    if (skipWs rest).isEmpty then .ok v else .error (.valueError "Extra data")
  | none => .error (.valueError "Expecting value")

/-- Model of `json.loads` on an arbitrary argument: non-string input raises
`TypeError` before any parsing. -/
def jsonLoads : PyVal → Except PyErr JSON
  | .str s => jsonLoadsStr s
  | _ => .error (.typeError "the JSON object must be str, bytes or bytearray")

/-- Body of the `try` block of `GiteeTransport._ParseJSON`:
`json.loads(rawData) if rawData else empty-dict`. -/
def ParseJSONtry (rawData : PyVal) : Except PyErr JSON :=
  if pyTruthy rawData then jsonLoads rawData else .ok (JSON.obj [])

/-- `GiteeTransport._ParseJSON` as written: the `except Exception` handler
turns any failure of the `try` body into an empty dict, so the method always
returns normally. -/
def ParseJSONmethod (rawData : PyVal) : Except PyErr JSON :=
  match ParseJSONtry rawData with
  | .ok j => .ok j
  | .error _ => .ok (JSON.obj [])

/-- The value `_ParseJSON` returns (it never raises, see `ParseJSONmethod`). -/
def ParseJSON (rawData : PyVal) : JSON :=
  match ParseJSONmethod rawData with
  | .ok j => j
  | .error _ => JSON.obj []

example : ParseJSON (.str "[]") = JSON.arr [] := rfl
example : ParseJSON (.str "123") = JSON.num "123" := rfl
example : ParseJSON (.str "some string") = JSON.obj [] := rfl
example : ParseJSON (.str "\x7b\"x\":123\x7d") = JSON.obj [("x", JSON.num "123")] := rfl
example : ParseJSON (.str "\x7b[]\x7d") = JSON.obj [] := rfl
example : ParseJSON (.int 123) = JSON.obj [] := rfl
example : ParseJSON .none = JSON.obj [] := rfl
example : ParseJSON (.str "null") = JSON.null := rfl

/-- The mutable configuration of a `GiteeTransport` instance (fields set in
`__init__`).  `body` is overwritten by every accessor; the mutex lock is not
modelled (execution is single-threaded here). -/
structure GiteeTransport where
  gAPIGateway : String
  timeout : Nat
  retry : Nat
  pause : Nat
  headers : List (String × String)
  body : Option String
  gToken : Option String
  gOwner : Option String
  gProject : Option String
  gSHA : Option String
  gRecursive : Bool
  save : Bool
  moreDebug : Bool
deriving Repr, DecidableEq

/-- One HTTP response as seen by the client (status and body text). -/
structure HTTPResponse where
  status_code : Nat
  text : String
deriving Repr, DecidableEq

/-- Result of one Python call in this model. -/
inductive PyResult (α : Type) where
  | ok (val : α)
  | exn (e : PyErr)
  | outOfFuel
deriving Repr, DecidableEq

/-- Observable outcome of `SendAPIRequest`: the returned value or exception,
how many HTTP requests were issued, and the sleeps (in seconds, in order)
performed between retries. -/
structure SendOutcome where
  result : PyResult JSON
  requests : Nat
  sleeps : List Nat
deriving Repr

/-- Python `sub in s` substring test. -/
def strContainsSub (s sub : String) : Bool :=
  go sub.data s.data
where
  go (needle : List Char) : List Char → Bool
    | [] => needle.isEmpty
    | c :: cs => List.isPrefixOf needle (c :: cs) || go needle cs

example : strContainsSub "abcode def" "code" = true := by decide
example : strContainsSub "abc" "code" = false := by decide

/-- Python subscript `v[key]` with a string key. -/
def pySubscript (v : JSON) (key : String) : Except PyErr JSON :=
  match v with
  | .obj fields =>
    match fields.lookup key with
    | some x => .ok x
    | none => .error (.keyError key)
  | .arr _ => .error (.typeError "list indices must be integers or slices, not str")
  | .str _ => .error (.typeError "string indices must be integers")
  | _ => .error (.typeError "object is not subscriptable")

/-- The diagnostic-logging step shared by the 4xx and 5xx branches of
`SendAPIRequest`: when the response text contains both substrings "code" and
"message", the body is parsed and `parsed["message"]` is read for the log
line — a subscript that can itself raise (`KeyError`/`TypeError`). -/
def logServerMessage (text : String) : Except PyErr Unit :=
  if strContainsSub text "code" && strContainsSub text "message" then
    match pySubscript (ParseJSON (.str text)) "message" with
    | .ok _ => .ok ()
    | .error e => .error e
  else .ok ()

/-- ASCII model of Python's `str.upper` (the two method names compared
against are ASCII). -/
def pyUpperChar (c : Char) : Char :=
  if 'a' ≤ c ∧ c ≤ 'z' then Char.ofNat (c.toNat - 32) else c

def pyUpper (s : String) : String := String.mk (s.data.map pyUpperChar)

example : pyUpper "get" = "GET" := by decide
example : pyUpper "PoSt" = "POST" := by decide

/-- The `while not response and counter <= self.retry` loop of
`SendAPIRequest`.  `reqs` counts HTTP requests issued so far (and indexes the
server oracle), `respJSON` is the current value of the local `responseJSON`,
and `sleeps` the sleeps performed so far.  A `requests.Response` is falsy
exactly when `status_code >= 400`, so a status ≥ 600 neither stops the loop
nor advances `counter`: that path only consumes fuel, and exhausted fuel
models the resulting endless loop.  When `reqType` is not exactly "GET" or
"POST", no request is issued and `response` stays `None`, so the first
attribute access on it raises `AttributeError`. -/
def sendLoop (t : GiteeTransport) (reqType : String) (server : Nat → HTTPResponse) :
    Nat → Nat → List Nat → JSON → Nat → SendOutcome
  | _, reqs, sleeps, _, 0 => { result := .outOfFuel, requests := reqs, sleeps := sleeps }
  | counter, reqs, sleeps, respJSON, fuel + 1 =>
    if reqType = "GET" || reqType = "POST" then
      let r := server reqs
      if 400 ≤ r.status_code ∧ r.status_code < 500 then
        match logServerMessage r.text with
        | .error e => { result := .exn e, requests := reqs + 1, sleeps := sleeps }
        | .ok _ => { result := .ok respJSON, requests := reqs + 1, sleeps := sleeps }
      else if 500 ≤ r.status_code ∧ r.status_code < 600 then
        match logServerMessage r.text with
        | .error e => { result := .exn e, requests := reqs + 1, sleeps := sleeps }
        | .ok _ =>
          if counter + 1 ≤ t.retry then
            sendLoop t reqType server (counter + 1) (reqs + 1) (sleeps ++ [t.pause]) respJSON fuel
          else { result := .ok respJSON, requests := reqs + 1, sleeps := sleeps }
      else if r.status_code < 400 then
        { result := .ok (ParseJSON (.str r.text)), requests := reqs + 1, sleeps := sleeps }
      else
        sendLoop t reqType server counter (reqs + 1) sleeps (ParseJSON (.str r.text)) fuel
    else
      { result := .exn (.attributeError "NoneType object has no attribute status_code"),
        requests := reqs, sleeps := sleeps }

/-- `GiteeTransport.SendAPIRequest`: validate the method name (via `upper()`),
then run the retry loop with `counter = 0`, `response = None`,
`responseJSON` an empty dict.  The `url`, headers, body and timeout are
carried by the server oracle abstraction and do not influence control flow. -/
def SendAPIRequest (t : GiteeTransport) (_url : String) (reqType : String)
    (server : Nat → HTTPResponse) (fuel : Nat) : SendOutcome :=
  if pyUpper reqType = "GET" || pyUpper reqType = "POST" then
    sendLoop t reqType server 0 0 [] (JSON.obj []) fuel
  else
    { result := .exn (.invalidArgument "Incorrect value"), requests := 0, sleeps := [] }

/-- A transport configuration with the defaults of `__init__` (no environment
variables set). -/
def defaultTransport : GiteeTransport :=
  { gAPIGateway := "https://gitee.ru/api/v5"
    timeout := 30
    retry := 3
    pause := 5
    headers := [("Content-Type", "application/x-www-form-urlencoded"), ("charset", "UTF-8"),
                ("accept", "application/json"), ("x-app-name", "3LogicGroup.GPReplicator")]
    body := none
    gToken := none
    gOwner := none
    gProject := none
    gSHA := none
    gRecursive := false
    save := false
    moreDebug := false }

example :
    SendAPIRequest defaultTransport "u" "GET" (fun _ => ⟨200, "[]"⟩) 9 =
      { result := .ok (JSON.arr []), requests := 1, sleeps := [] } := rfl

example :
    SendAPIRequest defaultTransport "u" "GET" (fun _ => ⟨404, "err"⟩) 9 =
      { result := .ok (JSON.obj []), requests := 1, sleeps := [] } := rfl

example :
    SendAPIRequest defaultTransport "u" "GET" (fun _ => ⟨500, "err"⟩) 9 =
      { result := .ok (JSON.obj []), requests := 4, sleeps := [5, 5, 5] } := rfl

example :
    SendAPIRequest defaultTransport "u" "get" (fun _ => ⟨200, "[]"⟩) 9 =
      { result := .exn (.attributeError "NoneType object has no attribute status_code"),
        requests := 0, sleeps := [] } := rfl

example :
    SendAPIRequest defaultTransport "u" "DELETE" (fun _ => ⟨200, "[]"⟩) 9 =
      { result := .exn (.invalidArgument "Incorrect value"), requests := 0, sleeps := [] } := rfl

example :
    SendAPIRequest defaultTransport "u" "GET" (fun _ => ⟨500, "code message"⟩) 9 =
      { result := .exn (.keyError "message"), requests := 1, sleeps := [] } := rfl

/-- A required configuration field is missing: `X is None or not X`. -/
def strFieldMissing : Option String → Bool
  | none => true
  | some s => s.isEmpty

/-- Request body set by every accessor:
`f"access_token={gToken}" if gToken is not None and gToken else None`. -/
def accessTokenBody : Option String → Option String
  | some s => if !s.isEmpty then some ("access_token=" ++ s) else none
  | none => none

/-- Rendering of an optional string inside an f-string (`None` prints as
"None"; accessors only interpolate validated, hence `some`, fields). -/
def pyFStr : Option String → String
  | some s => s
  | none => "None"

/-- Python `len` on a decoded JSON value; `none` models the `TypeError`
raised by `len` of `None`, a bool or a number. -/
def pyLen : JSON → Option Nat
  | .str s => some s.length
  | .arr xs => some xs.length
  | .obj fs => some fs.length
  | _ => none

/-- Python iteration over a sized value: list elements, characters of a
string, keys of a dict. -/
def pyIterItems : JSON → List JSON
  | .arr xs => xs
  | .str s => s.data.map (fun c => JSON.str (String.mk [c]))
  | .obj fs => fs.map (fun p => JSON.str p.1)
  | _ => []

def isJSONList : JSON → Bool
  | .arr _ => true
  | _ => false

def isJSONDict : JSON → Bool
  | .obj _ => true
  | _ => false

/-- Lookup in a decoded JSON dict (`v[key]` guarded by `key in v.keys()`). -/
def dictGet (v : JSON) (key : String) : Option JSON :=
  match v with
  | .obj fields => fields.lookup key
  | _ => none

def dictHasKey (v : JSON) (key : String) : Bool := (dictGet v key).isSome

/-- Python truthiness of a decoded JSON value.  A numeric literal is falsy
exactly when its value is zero, i.e. when its lexeme has no nonzero digit. -/
def jsonTruthy : JSON → Bool
  | .null => false
  | .bool b => b
  | .num lex => lex.data.any (fun c => '1' ≤ c ∧ c ≤ '9')
  | .str s => !s.isEmpty
  | .arr xs => !xs.isEmpty
  | .obj fs => !fs.isEmpty

/-- `x.split(...)` requires a string receiver (`AttributeError` otherwise);
indexing the split result at 0 never fails. -/
def pyStrSplitHead : JSON → Except PyErr Unit
  | .str _ => .ok ()
  | _ => .error (.attributeError "object has no attribute split")

/-- String concatenation `"..." + x` requires `x` to be a string. -/
def pyConcatStr : JSON → Except PyErr Unit
  | .str _ => .ok ()
  | _ => .error (.typeError "can only concatenate str to str")

/-- Run one summary-line builder over every item of the result sequence,
propagating the first exception (the built log text itself is not observed). -/
def pyLines (line : JSON → Except PyErr Unit) : List JSON → Except PyErr Unit
  | [] => .ok ()
  | x :: xs =>
    match line x with
    | .error e => .error e
    | .ok _ => pyLines line xs

/-- Effects of one line of the `Files` summary:
`"|-> " + item['path'] + ... {item['type']} ... {item['sha']} {item['size']}`. -/
def fileTreeLine (item : JSON) : Except PyErr Unit := do
  let p ← pySubscript item "path"
  pyConcatStr p
  let _ ← pySubscript item "type"
  let _ ← pySubscript item "sha"
  let _ ← pySubscript item "size"
  pure ()

/-- Effects of one line of the `Issues` summary. -/
def issueLine (item : JSON) : Except PyErr Unit := do
  let _ ← pySubscript item "state"
  let _ ← pySubscript item "issue_type"
  let ca ← pySubscript item "created_at"
  pyStrSplitHead ca
  let _ ← pySubscript item "title"
  let m ← pySubscript item "milestone"
  if jsonTruthy m then
    let _ ← pySubscript m "title"
    pure ()
  else
    pure ()

/-- Effects of one line of the `Milestones` summary. -/
def milestoneLine (item : JSON) : Except PyErr Unit := do
  let _ ← pySubscript item "state"
  let ca ← pySubscript item "created_at"
  pyStrSplitHead ca
  let d ← pySubscript item "due_on"
  pyStrSplitHead d
  let _ ← pySubscript item "title"
  let _ ← pySubscript item "open_issues"
  let _ ← pySubscript item "closed_issues"
  pure ()

/-- Effects of one line of the `Releases` summary. -/
def releaseLine (item : JSON) : Except PyErr Unit := do
  let ca ← pySubscript item "created_at"
  pyStrSplitHead ca
  let _ ← pySubscript item "tag_name"
  let _ ← pySubscript item "name"
  let _ ← pySubscript item "prerelease"
  pure ()

/-- Effects of one line of the `Tags` summary. -/
def tagLine (item : JSON) : Except PyErr Unit := do
  let c ← pySubscript item "commit"
  let d ← pySubscript c "date"
  pyStrSplitHead d
  let _ ← pySubscript item "name"
  pure ()

/-- Effects of one line of the `Branches` summary. -/
def branchLine (item : JSON) : Except PyErr Unit := do
  let _ ← pySubscript item "name"
  let _ ← pySubscript item "protected"
  pure ()

/-- Effects of one line of the `Repositories` summary. -/
def repoLine (item : JSON) : Except PyErr Unit := do
  let _ ← pySubscript item "full_name"
  let _ ← pySubscript item "description"
  let _ ← pySubscript item "license"
  let _ ← pySubscript item "public"
  let _ ← pySubscript item "fork"
  let _ ← pySubscript item "watchers_count"
  let _ ← pySubscript item "forks_count"
  let _ ← pySubscript item "stargazers_count"
  pure ()

/-- Observable outcome of one accessor call: result or exception, the final
configuration (the accessors mutate `self.body`), the number of HTTP requests
issued, the URL handed to `SendAPIRequest` (if reached), and the local files
written (path, content). -/
structure AccessorOutcome (α : Type) where
  result : PyResult α
  state : GiteeTransport
  requests : Nat
  url : Option String
  writes : List (String × String)
deriving Repr

/-- URL built by `Files` (local `projectFilesURL`). -/
def projectFilesURL (t : GiteeTransport) : String :=
  t.gAPIGateway ++ "/repos/" ++ pyFStr t.gOwner ++ "/" ++ pyFStr t.gProject ++
    "/git/trees/" ++ pyFStr t.gSHA ++ "?recursive=" ++ (if t.gRecursive then "1" else "0")

/-- URL built by `GetFile` (local `projectFileURL`). -/
def projectFileURL (t : GiteeTransport) : String :=
  t.gAPIGateway ++ "/repos/" ++ pyFStr t.gOwner ++ "/" ++ pyFStr t.gProject ++
    "/git/blobs/" ++ pyFStr t.gSHA

/-- URL built by `Issues` (local `issuesURL`). -/
def issuesURL (t : GiteeTransport) : String :=
  t.gAPIGateway ++ "/repos/" ++ pyFStr t.gOwner ++ "/" ++ pyFStr t.gProject ++ "/issues?state=all"

/-- URL built by `Milestones` (local `milestonesURL`). -/
def milestonesURL (t : GiteeTransport) : String :=
  t.gAPIGateway ++ "/repos/" ++ pyFStr t.gOwner ++ "/" ++ pyFStr t.gProject ++ "/milestones"

/-- URL built by `Releases` (local `releasesURL`). -/
def releasesURL (t : GiteeTransport) : String :=
  t.gAPIGateway ++ "/repos/" ++ pyFStr t.gOwner ++ "/" ++ pyFStr t.gProject ++ "/releases"

/-- URL built by `Tags` (local `tagsURL`). -/
def tagsURL (t : GiteeTransport) : String :=
  t.gAPIGateway ++ "/repos/" ++ pyFStr t.gOwner ++ "/" ++ pyFStr t.gProject ++ "/tags"

/-- URL built by `Branches` (local `branchesURL`). -/
def branchesURL (t : GiteeTransport) : String :=
  t.gAPIGateway ++ "/repos/" ++ pyFStr t.gOwner ++ "/" ++ pyFStr t.gProject ++
    "/branches?sort=name&direction=asc&page=1&per_page=100"

/-- URL built by `Repositories` (local `reposURL`). -/
def reposURL (t : GiteeTransport) : String :=
  t.gAPIGateway ++ "/user/repos?sort=full_name&direction=asc&page=1&per_page=100"

/-- Shared "there are no X"-normalisation of the list accessors
(`Issues`, `Milestones`, `Releases`, `Tags`, `Branches`, `Repositories`):
`count = len(result)` runs BEFORE the `isinstance(result, list)` test, so an
unsized transport result (None, number, bool) raises `TypeError`; a non-empty
list is summarised line by line (which may raise) and returned as is; anything
else is replaced by the empty list. -/
def listPostProcess (line : JSON → Except PyErr Unit) (decoded : JSON) : PyResult JSON :=
  match pyLen decoded with
  | none => .exn (.typeError "object has no len")
  | some count =>
    if isJSONList decoded && count ≠ 0 then
      match pyLines line (pyIterItems decoded) with
      | .error e => .exn e
      | .ok _ => .ok decoded
    else .ok (JSON.arr [])

/-- `GiteeTransport.Issues`. -/
def Issues (t : GiteeTransport) (server : Nat → HTTPResponse) (fuel : Nat) :
    AccessorOutcome JSON :=
  if strFieldMissing t.gOwner || strFieldMissing t.gProject then
    { result := .exn (.missingConfiguration "Some parameters are required"),
      state := t, requests := 0, url := none, writes := [] }
  else
    let t1 := { t with body := accessTokenBody t.gToken }
    let url := issuesURL t1
    let out := SendAPIRequest t1 url "GET" server fuel
    { state := t1, requests := out.requests, url := some url, writes := []
      result :=
        match out.result with
        | .outOfFuel => .outOfFuel
        | .exn e => .exn e
        | .ok issues => listPostProcess issueLine issues }

/-- `GiteeTransport.Milestones`. -/
def Milestones (t : GiteeTransport) (server : Nat → HTTPResponse) (fuel : Nat) :
    AccessorOutcome JSON :=
  if strFieldMissing t.gOwner || strFieldMissing t.gProject then
    { result := .exn (.missingConfiguration "Some parameters are required"),
      state := t, requests := 0, url := none, writes := [] }
  else
    let t1 := { t with body := accessTokenBody t.gToken }
    let url := milestonesURL t1
    let out := SendAPIRequest t1 url "GET" server fuel
    { state := t1, requests := out.requests, url := some url, writes := []
      result :=
        match out.result with
        | .outOfFuel => .outOfFuel
        | .exn e => .exn e
        | .ok milestones => listPostProcess milestoneLine milestones }

/-- `GiteeTransport.Releases`. -/
def Releases (t : GiteeTransport) (server : Nat → HTTPResponse) (fuel : Nat) :
    AccessorOutcome JSON :=
  if strFieldMissing t.gOwner || strFieldMissing t.gProject then
    { result := .exn (.missingConfiguration "Some parameters are required"),
      state := t, requests := 0, url := none, writes := [] }
  else
    let t1 := { t with body := accessTokenBody t.gToken }
    let url := releasesURL t1
    let out := SendAPIRequest t1 url "GET" server fuel
    { state := t1, requests := out.requests, url := some url, writes := []
      result :=
        match out.result with
        | .outOfFuel => .outOfFuel
        | .exn e => .exn e
        | .ok releases => listPostProcess releaseLine releases }

/-- `GiteeTransport.Tags`. -/
def Tags (t : GiteeTransport) (server : Nat → HTTPResponse) (fuel : Nat) :
    AccessorOutcome JSON :=
  if strFieldMissing t.gOwner || strFieldMissing t.gProject then
    { result := .exn (.missingConfiguration "Some parameters are required"),
      state := t, requests := 0, url := none, writes := [] }
  else
    let t1 := { t with body := accessTokenBody t.gToken }
    let url := tagsURL t1
    let out := SendAPIRequest t1 url "GET" server fuel
    { state := t1, requests := out.requests, url := some url, writes := []
      result :=
        match out.result with
        | .outOfFuel => .outOfFuel
        | .exn e => .exn e
        | .ok tags => listPostProcess tagLine tags }

/-- `GiteeTransport.Branches`. -/
def Branches (t : GiteeTransport) (server : Nat → HTTPResponse) (fuel : Nat) :
    AccessorOutcome JSON :=
  if strFieldMissing t.gOwner || strFieldMissing t.gProject then
    { result := .exn (.missingConfiguration "Some parameters are required"),
      state := t, requests := 0, url := none, writes := [] }
  else
    let t1 := { t with body := accessTokenBody t.gToken }
    let url := branchesURL t1
    let out := SendAPIRequest t1 url "GET" server fuel
    { state := t1, requests := out.requests, url := some url, writes := []
      result :=
        match out.result with
        | .outOfFuel => .outOfFuel
        | .exn e => .exn e
        | .ok branches => listPostProcess branchLine branches }

/-- `GiteeTransport.Repositories` (requires `gToken` instead of
owner/project). -/
def Repositories (t : GiteeTransport) (server : Nat → HTTPResponse) (fuel : Nat) :
    AccessorOutcome JSON :=
  if strFieldMissing t.gToken then
    { result := .exn (.missingConfiguration "Some parameters are required"),
      state := t, requests := 0, url := none, writes := [] }
  else
    let t1 := { t with body := accessTokenBody t.gToken }
    let url := reposURL t1
    let out := SendAPIRequest t1 url "GET" server fuel
    { state := t1, requests := out.requests, url := some url, writes := []
      result :=
        match out.result with
        | .outOfFuel => .outOfFuel
        | .exn e => .exn e
        | .ok repos => listPostProcess repoLine repos }

/-- `GiteeTransport.Files`: the shape test (`isinstance(..., dict)` and
`"tree" in keys`) runs BEFORE any `len`, unlike the list accessors.  A dict
containing "tree" is returned as is (after summarising a non-empty tree);
anything else becomes the empty dict. -/
def Files (t : GiteeTransport) (server : Nat → HTTPResponse) (fuel : Nat) :
    AccessorOutcome JSON :=
  if strFieldMissing t.gOwner || strFieldMissing t.gProject || strFieldMissing t.gSHA then
    { result := .exn (.missingConfiguration "Some parameters are required"),
      state := t, requests := 0, url := none, writes := [] }
  else
    let t1 := { t with body := accessTokenBody t.gToken }
    let url := projectFilesURL t1
    let out := SendAPIRequest t1 url "GET" server fuel
    { state := t1, requests := out.requests, url := some url, writes := []
      result :=
        match out.result with
        | .outOfFuel => .outOfFuel
        | .exn e => .exn e
        | .ok projectFiles =>
          if isJSONDict projectFiles && dictHasKey projectFiles "tree" then
            let tree := (dictGet projectFiles "tree").getD JSON.null
            match pyLen tree with
            | none => .exn (.typeError "object has no len")
            | some count =>
              if count ≠ 0 then
                match pyLines fileTreeLine (pyIterItems tree) with
                | .error e => .exn e
                | .ok _ => .ok projectFiles
              else .ok projectFiles
          else .ok (JSON.obj []) }

/-- Value of one base64 alphabet character. -/
def b64DigitVal (c : Char) : Option Nat :=
  if 'A' ≤ c ∧ c ≤ 'Z' then some (c.toNat - 65)
  else if 'a' ≤ c ∧ c ≤ 'z' then some (c.toNat - 71)
  else if '0' ≤ c ∧ c ≤ '9' then some (c.toNat + 4)
  else if c = '+' then some 62
  else if c = '/' then some 63
  else none

/-- Blocks of four base64 characters; `=` padding only in the final block.
`none` models the `binascii.Error` of `base64.b64decode(..., validate=True)`
on a non-alphabet character, misplaced padding or a length that is not a
multiple of four. -/
def b64Blocks : List Char → Option (List Nat)
  | [] => some []
  | a :: b :: c :: d :: rest =>
    match b64DigitVal a, b64DigitVal b with
    | some va, some vb =>
      if c = '=' then
        if d = '=' ∧ rest = [] then some [va * 4 + vb / 16] else none
      else
        match b64DigitVal c with
        | some vc =>
          if d = '=' then
            if rest = [] then some [va * 4 + vb / 16, (vb % 16) * 16 + vc / 4] else none
          else
            match b64DigitVal d with
            | some vd =>
              match b64Blocks rest with
              | some bs =>
                some ((va * 4 + vb / 16) :: ((vb % 16) * 16 + vc / 4) :: ((vc % 4) * 64 + vd) :: bs)
              | none => none
            | none => none
        | none => none
    | _, _ => none
  | _ => none

/-- `base64.b64decode(s, validate=True)` on a string argument. -/
def b64decode (s : String) : Option (List Nat) := b64Blocks s.data

example : b64decode "aGVsbG8=" = some [104, 101, 108, 108, 111] := by decide
example : b64decode "XHg=" = some [92, 120] := by decide
example : b64decode "a*b=" = none := by decide

def isOctDigitByte (b : Nat) : Bool := 48 ≤ b ∧ b ≤ 55

def hexValByte (b : Nat) : Option Nat :=
  if 48 ≤ b ∧ b ≤ 57 then some (b - 48)
  else if 97 ≤ b ∧ b ≤ 102 then some (b - 87)
  else if 65 ≤ b ∧ b ≤ 70 then some (b - 55)
  else none

/-- `bytes.decode('unicode_escape')`: each byte is Latin-1 unless it starts a
backslash escape.  Truncated `\xhh`, `\uhhhh`, `\Uhhhhhhhh` escapes, a `\N`
escape (name lookup is outside this model) and a trailing lone backslash
raise (`none`); an unknown escape keeps the backslash and the character.
Fuel decreases per consumed byte, so `length + 1` always suffices. -/
def uEscAux : Nat → List Nat → Option (List Char)
  | 0, _ => none
  | _, [] => some []
  | fuel + 1, b :: rest =>
    let cons1 (c : Char) (r : List Nat) : Option (List Char) :=
      match uEscAux fuel r with
      | some cs => some (c :: cs)
      | none => none
    if b ≠ 92 then cons1 (Char.ofNat b) rest
    else
      match rest with
      | [] => none
      | e :: rest2 =>
        if e = 10 then uEscAux fuel rest2
        else if e = 92 then cons1 (Char.ofNat 92) rest2
        else if e = 39 then cons1 (Char.ofNat 39) rest2
        else if e = 34 then cons1 (Char.ofNat 34) rest2
        else if e = 97 then cons1 (Char.ofNat 7) rest2
        else if e = 98 then cons1 (Char.ofNat 8) rest2
        else if e = 102 then cons1 (Char.ofNat 12) rest2
        else if e = 110 then cons1 (Char.ofNat 10) rest2
        else if e = 114 then cons1 (Char.ofNat 13) rest2
        else if e = 116 then cons1 (Char.ofNat 9) rest2
        else if e = 118 then cons1 (Char.ofNat 11) rest2
        else if isOctDigitByte e then
          match rest2 with
          | d2 :: rest3 =>
            if isOctDigitByte d2 then
              match rest3 with
              | d3 :: rest4 =>
                if isOctDigitByte d3 then
                  cons1 (Char.ofNat ((e - 48) * 64 + (d2 - 48) * 8 + (d3 - 48))) rest4
                else cons1 (Char.ofNat ((e - 48) * 8 + (d2 - 48))) rest3
              | [] => cons1 (Char.ofNat ((e - 48) * 8 + (d2 - 48))) rest3
            else cons1 (Char.ofNat (e - 48)) rest2
          | [] => cons1 (Char.ofNat (e - 48)) rest2
        else if e = 120 then
          match rest2 with
          | h1 :: h2 :: rest3 =>
            match hexValByte h1, hexValByte h2 with
            | some a, some b2 => cons1 (Char.ofNat (a * 16 + b2)) rest3
            | _, _ => none
          | _ => none
        else if e = 117 then
          match rest2 with
          | h1 :: h2 :: h3 :: h4 :: rest3 =>
            match hexValByte h1, hexValByte h2, hexValByte h3, hexValByte h4 with
            | some a, some b2, some c, some d =>
              cons1 (Char.ofNat (((a * 16 + b2) * 16 + c) * 16 + d)) rest3
            | _, _, _, _ => none
          | _ => none
        else if e = 85 then
          match rest2 with
          | h1 :: h2 :: h3 :: h4 :: h5 :: h6 :: h7 :: h8 :: rest3 =>
            match hexValByte h1, hexValByte h2, hexValByte h3, hexValByte h4,
                hexValByte h5, hexValByte h6, hexValByte h7, hexValByte h8 with
            | some a, some b2, some c, some d, some a2, some b3, some c2, some d2 =>
              let v := ((((((a * 16 + b2) * 16 + c) * 16 + d) * 16 + a2) * 16 + b3) * 16 + c2)
                * 16 + d2
              if v ≤ 1114111 then cons1 (Char.ofNat v) rest3 else none
            | _, _, _, _, _, _, _, _ => none
          | _ => none
        else if e = 78 then none
        else
          match uEscAux fuel rest2 with
          | some cs => some (Char.ofNat 92 :: Char.ofNat e :: cs)
          | none => none

/-- `bytes.decode('unicode_escape')` with enough fuel. -/
def unicodeEscape (bs : List Nat) : Option String :=
  match uEscAux (bs.length + 1) bs with
  | some cs => some (String.mk cs)
  | none => none

example : unicodeEscape [104, 101, 108, 108, 111] = some "hello" := by decide
example : unicodeEscape [92, 120] = none := by decide
example : unicodeEscape [92, 110] = some "\n" := by decide

def headIsSlash (s : String) : Bool :=
  match s.data with
  | c :: _ => c = '/'
  | [] => false

def lastIsSlash (s : String) : Bool :=
  match s.data.getLast? with
  | some c => c = '/'
  | none => false

/-- `os.path.join(base, name)`: an absolute second component replaces the
first. -/
def pyPathJoin (base name : String) : String :=
  if headIsSlash name then name
  else if lastIsSlash base then base ++ name
  else base ++ "/" ++ name

/-- `GiteeTransport.GetFile` (`cwd` stands for `os.path.abspath(os.path.curdir)`).
If the transport result is a dict with "content" and "size" keys, the content
is base64-decoded (`validate=True`, so `binascii.Error` on bad input, and
`TypeError` if the value is not a string) and then decoded with
`unicode_escape` (which can raise `UnicodeDecodeError`); with `save` set the
decoded text is written to a file named after `gSHA`.  Any other transport
result yields the empty string. -/
def GetFile (t : GiteeTransport) (server : Nat → HTTPResponse) (fuel : Nat)
    (cwd : String) : AccessorOutcome String :=
  if strFieldMissing t.gOwner || strFieldMissing t.gProject || strFieldMissing t.gSHA then
    { result := .exn (.missingConfiguration "Some parameters are required"),
      state := t, requests := 0, url := none, writes := [] }
  else
    let t1 := { t with body := accessTokenBody t.gToken }
    let url := projectFileURL t1
    let out := SendAPIRequest t1 url "GET" server fuel
    let base : AccessorOutcome String :=
      { result := .ok "", state := t1, requests := out.requests, url := some url, writes := [] }
    match out.result with
    | .outOfFuel => { base with result := .outOfFuel }
    | .exn e => { base with result := .exn e }
    | .ok projectFile =>
      if isJSONDict projectFile && dictHasKey projectFile "content" &&
          dictHasKey projectFile "size" then
        match (dictGet projectFile "content").getD JSON.null with
        | .str c =>
          match b64decode c with
          | none => { base with result := .exn (.binasciiError "Non-base64 digit found") }
          | some bytes =>
            match unicodeEscape bytes with
            | none => { base with result := .exn (.unicodeDecodeError "truncated escape") }
            | some content =>
              { base with
                result := .ok content
                writes :=
                  if t.save then [(pyPathJoin cwd (pyFStr t.gSHA), content)] else [] }
        | _ => { base with result := .exn (.typeError "argument should be a bytes-like object or ASCII string") }
      else { base with result := .ok "" }

def cfgFull : GiteeTransport :=
  { defaultTransport with
    gToken := some "tkn", gOwner := some "own", gProject := some "proj",
    gSHA := some "abc123", save := true }

example :
    (GetFile cfgFull (fun _ => ⟨200, "\x7b\"content\": \"aGVsbG8=\", \"size\": 5\x7d"⟩) 9
      "/tmp").result = .ok "hello" := rfl

example :
    (GetFile cfgFull (fun _ => ⟨200, "\x7b\"content\": \"aGVsbG8=\", \"size\": 5\x7d"⟩) 9
      "/tmp").writes = [("/tmp/abc123", "hello")] := by decide

example :
    (GetFile cfgFull (fun _ => ⟨200, "\x7b\"content\": \"XHg=\", \"size\": 2\x7d"⟩) 9
      "/tmp").result = .exn (.unicodeDecodeError "truncated escape") := rfl

example : (Issues cfgFull (fun _ => ⟨200, "null"⟩) 9).result
    = .exn (.typeError "object has no len") := rfl

example : (Issues cfgFull (fun _ => ⟨200, "\x7b\"a\": 1\x7d"⟩) 9).result
    = .ok (JSON.arr []) := rfl

example : (Files cfgFull (fun _ => ⟨200, "\x7b\"a\": 1\x7d"⟩) 9).result
    = .ok (JSON.obj []) := rfl

/-- C4: for every input to `_ParseJSON` — empty or falsy input, a malformed
JSON string, or a non-string already-structured value (list, number, None) —
the method never raises (the `except` handler absorbs every failure of
`json.loads`), and on falsy input or any parse error it returns an empty
mapping. -/
theorem claim_C4_parse_never_raises (v : PyVal) :
    ParseJSONmethod v = Except.ok (ParseJSON v) ∧
    (pyTruthy v = false → ParseJSON v = JSON.obj []) ∧
    (∀ e, jsonLoads v = Except.error e → ParseJSON v = JSON.obj []) := by
  unfold ParseJSON ParseJSONmethod ParseJSONtry
  refine ⟨?_, ?_, ?_⟩
  · by_cases ht : pyTruthy v
    · simp only [ht, if_true]
      cases jsonLoads v <;> rfl
    · simp [ht]
  · intro h
    simp [h]
  · intro e he
    by_cases ht : pyTruthy v
    · simp [ht, he]
    · simp [ht]

/-- Witness for C4: a malformed string is degraded to an empty dict without
an exception, and falsy or non-string inputs give an empty dict. -/
theorem claim_C4_parse_never_raises_witness :
    ParseJSONmethod (PyVal.str "some string") = Except.ok (JSON.obj []) ∧
    ParseJSON (PyVal.str "") = JSON.obj [] ∧
    ParseJSON (PyVal.int 123) = JSON.obj [] ∧
    ParseJSON PyVal.none = JSON.obj [] := by
  have hmal : ParseJSON (PyVal.str "some string") = JSON.obj [] :=
    (claim_C4_parse_never_raises (PyVal.str "some string")).2.2
      (PyErr.valueError "Expecting value") rfl
  refine ⟨?_, ?_, ?_, ?_⟩
  · have h1 := (claim_C4_parse_never_raises (PyVal.str "some string")).1
    rw [hmal] at h1
    exact h1
  · exact (claim_C4_parse_never_raises (PyVal.str "")).2.1 (by decide)
  · exact (claim_C4_parse_never_raises (PyVal.int 123)).2.2
      (PyErr.typeError "the JSON object must be str, bytes or bytearray") rfl
  · exact (claim_C4_parse_never_raises PyVal.none).2.1 (by decide)

/-- C5 counterexample: `reqType = "get"` is a value other than "GET" or
"POST", yet `SendAPIRequest` does not raise `InvalidArgument`: the
`reqType.upper()` validation passes and the call instead dies dereferencing
the never-assigned `response` (an `AttributeError` on `None`), still with no
HTTP request issued. -/
theorem claim_C5_counterexample :
    (SendAPIRequest defaultTransport "u" "get" (fun _ => ⟨200, "[]"⟩) 9).result =
      PyResult.exn (PyErr.attributeError "NoneType object has no attribute status_code") ∧
    (SendAPIRequest defaultTransport "u" "get" (fun _ => ⟨200, "[]"⟩) 9).requests = 0 ∧
    PyErr.attributeError "NoneType object has no attribute status_code" ≠
      PyErr.invalidArgument "Incorrect value" :=
  ⟨rfl, rfl, by decide⟩

/-- C5 amended: for every `reqType` whose upper-cased form is not "GET" or
"POST", `SendAPIRequest` raises `InvalidArgument` ("Incorrect value") before
any network activity — no HTTP request, no sleep.  (Values whose upper-case
IS "GET"/"POST" without being exactly that string pass this validation and
fail later; see C9.) -/
theorem claim_C5_amended (t : GiteeTransport) (url reqType : String)
    (server : Nat → HTTPResponse) (fuel : Nat)
    (h : ¬(pyUpper reqType = "GET" ∨ pyUpper reqType = "POST")) :
    SendAPIRequest t url reqType server fuel =
      { result := .exn (.invalidArgument "Incorrect value"), requests := 0, sleeps := [] } := by
  have h1 : pyUpper reqType ≠ "GET" := fun hh => h (Or.inl hh)
  have h2 : pyUpper reqType ≠ "POST" := fun hh => h (Or.inr hh)
  simp [SendAPIRequest, h1, h2]

/-- Witness for C5 (amended): "DELETE" is rejected up front. -/
theorem claim_C5_amended_witness :
    SendAPIRequest defaultTransport "u" "DELETE" (fun _ => ⟨200, "[]"⟩) 9 =
      { result := .exn (.invalidArgument "Incorrect value"), requests := 0, sleeps := [] } :=
  claim_C5_amended defaultTransport "u" "DELETE" (fun _ => ⟨200, "[]"⟩) 9 (by decide)

/-- C9: a `reqType` whose upper-cased form is "GET" or "POST" but which is
not exactly one of those strings passes the method validation, issues no HTTP
request (both `reqType == "GET"` and `reqType == "POST"` comparisons fail, so
`response` stays `None`), and then raises an `AttributeError` on `None`
rather than `InvalidArgument`. -/
theorem claim_C9_lowercase_method (t : GiteeTransport) (url reqType : String)
    (server : Nat → HTTPResponse) (fuel : Nat)
    (hup : pyUpper reqType = "GET" ∨ pyUpper reqType = "POST")
    (h1 : reqType ≠ "GET") (h2 : reqType ≠ "POST") (hf : 0 < fuel) :
    SendAPIRequest t url reqType server fuel =
      { result := .exn (.attributeError "NoneType object has no attribute status_code"),
        requests := 0, sleeps := [] } := by
  obtain ⟨f, rfl⟩ : ∃ f, fuel = f + 1 := ⟨fuel - 1, by omega⟩
  rcases hup with hu | hu <;> simp [SendAPIRequest, hu, sendLoop, h1, h2]

/-- Witness for C9: `reqType = "get"`. -/
theorem claim_C9_lowercase_method_witness :
    SendAPIRequest defaultTransport "u" "get" (fun _ => ⟨200, "[]"⟩) 9 =
      { result := .exn (.attributeError "NoneType object has no attribute status_code"),
        requests := 0, sleeps := [] } :=
  claim_C9_lowercase_method defaultTransport "u" "get" (fun _ => ⟨200, "[]"⟩) 9
    (Or.inl (by decide)) (by decide) (by decide) (by decide)

/-- C3: every accessor whose required configuration fields (`gOwner` and
`gProject` for Issues/Milestones/Releases/Tags/Branches, additionally `gSHA`
for Files/GetFile, `gToken` for Repositories) are `None` or empty raises
`MissingConfiguration` ("Some parameters are required") and issues no network
request: zero HTTP requests, no URL ever handed to the transport, the
configuration untouched. -/
theorem claim_C3_missing_config_fails_fast (t : GiteeTransport)
    (server : Nat → HTTPResponse) (fuel : Nat) (cwd : String) :
    ((strFieldMissing t.gOwner || strFieldMissing t.gProject) = true →
      Issues t server fuel =
        { result := .exn (.missingConfiguration "Some parameters are required"),
          state := t, requests := 0, url := none, writes := [] } ∧
      Milestones t server fuel =
        { result := .exn (.missingConfiguration "Some parameters are required"),
          state := t, requests := 0, url := none, writes := [] } ∧
      Releases t server fuel =
        { result := .exn (.missingConfiguration "Some parameters are required"),
          state := t, requests := 0, url := none, writes := [] } ∧
      Tags t server fuel =
        { result := .exn (.missingConfiguration "Some parameters are required"),
          state := t, requests := 0, url := none, writes := [] } ∧
      Branches t server fuel =
        { result := .exn (.missingConfiguration "Some parameters are required"),
          state := t, requests := 0, url := none, writes := [] }) ∧
    ((strFieldMissing t.gOwner || strFieldMissing t.gProject ||
        strFieldMissing t.gSHA) = true →
      Files t server fuel =
        { result := .exn (.missingConfiguration "Some parameters are required"),
          state := t, requests := 0, url := none, writes := [] } ∧
      GetFile t server fuel cwd =
        { result := .exn (.missingConfiguration "Some parameters are required"),
          state := t, requests := 0, url := none, writes := [] }) ∧
    (strFieldMissing t.gToken = true →
      Repositories t server fuel =
        { result := .exn (.missingConfiguration "Some parameters are required"),
          state := t, requests := 0, url := none, writes := [] }) := by
  refine ⟨fun h => ?_, fun h => ?_, fun h => ?_⟩
  · exact ⟨by simp [Issues, h], by simp [Milestones, h], by simp [Releases, h],
      by simp [Tags, h], by simp [Branches, h]⟩
  · exact ⟨by simp [Files, h], by simp [GetFile, h]⟩
  · simp [Repositories, h]

/-- Witness for C3: with the default configuration (all of `gOwner`,
`gProject`, `gSHA`, `gToken` unset) every accessor fails fast with zero
requests. -/
theorem claim_C3_missing_config_fails_fast_witness :
    (Issues defaultTransport (fun _ => ⟨200, "[]"⟩) 9).result =
      .exn (.missingConfiguration "Some parameters are required") ∧
    (Issues defaultTransport (fun _ => ⟨200, "[]"⟩) 9).requests = 0 ∧
    (Files defaultTransport (fun _ => ⟨200, "[]"⟩) 9).requests = 0 ∧
    (GetFile defaultTransport (fun _ => ⟨200, "[]"⟩) 9 "/tmp").requests = 0 ∧
    (Repositories defaultTransport (fun _ => ⟨200, "[]"⟩) 9).requests = 0 := by
  have h := claim_C3_missing_config_fails_fast defaultTransport
    (fun _ => ⟨200, "[]"⟩) 9 "/tmp"
  obtain ⟨h1, h2, h3⟩ := h
  have hi := h1 (by decide)
  have hf := h2 (by decide)
  have hr := h3 (by decide)
  exact ⟨by rw [hi.1], by rw [hi.1], by rw [hf.1], by rw [hf.2], by rw [hr]⟩

/-- C8: with non-empty `gOwner`, `gProject`, `gSHA`, the URL `Files` hands to
the transport is the gateway followed by
`/repos/{owner}/{project}/git/trees/{ref}` with `?recursive=1` when
`gRecursive` is set and `?recursive=0` otherwise, and the URL `Branches`
hands over is the gateway followed by
`/repos/{owner}/{project}/branches?sort=name&direction=asc&page=1&per_page=100`. -/
theorem claim_C8_url_templates (t : GiteeTransport) (server : Nat → HTTPResponse)
    (fuel : Nat)
    (ho : strFieldMissing t.gOwner = false) (hp : strFieldMissing t.gProject = false)
    (hs : strFieldMissing t.gSHA = false) :
    (Files t server fuel).url =
      some (t.gAPIGateway ++ "/repos/" ++ pyFStr t.gOwner ++ "/" ++ pyFStr t.gProject ++
        "/git/trees/" ++ pyFStr t.gSHA ++
        (if t.gRecursive then "?recursive=1" else "?recursive=0")) ∧
    (Branches t server fuel).url =
      some (t.gAPIGateway ++ "/repos/" ++ pyFStr t.gOwner ++ "/" ++ pyFStr t.gProject ++
        "/branches?sort=name&direction=asc&page=1&per_page=100") := by
  constructor
  · simp only [Files, ho, hp, hs, Bool.or_self, Bool.or_false, Bool.false_or, if_neg,
      Bool.false_eq_true, not_false_iff]
    simp only [projectFilesURL]
    cases hr : t.gRecursive <;>
      simp [hr, String.append_assoc]
  · simp only [Branches, ho, hp, Bool.or_self, Bool.or_false, Bool.false_or, if_neg,
      Bool.false_eq_true, not_false_iff]
    simp [branchesURL]

/-- Witness for C8 at a concrete configuration (`gRecursive = false`). -/
theorem claim_C8_url_templates_witness :
    (Files cfgFull (fun _ => ⟨200, "[]"⟩) 9).url =
      some ("https://gitee.ru/api/v5" ++ "/repos/" ++ "own" ++ "/" ++ "proj" ++
        "/git/trees/" ++ "abc123" ++ (if cfgFull.gRecursive then "?recursive=1"
          else "?recursive=0")) ∧
    (Branches cfgFull (fun _ => ⟨200, "[]"⟩) 9).url =
      some ("https://gitee.ru/api/v5" ++ "/repos/" ++ "own" ++ "/" ++ "proj" ++
        "/branches?sort=name&direction=asc&page=1&per_page=100") :=
  claim_C8_url_templates cfgFull (fun _ => ⟨200, "[]"⟩) 9 (by decide) (by decide) (by decide)

def cfgC10 : GiteeTransport :=
  { defaultTransport with gOwner := some "", gProject := some "p", body := some "x" }

/-- C10 counterexample: an accessor call that fails its required-field
validation raises before the `self.body = ...` assignment, so `body` is NOT
overwritten.  Here `gToken` is unset, so the claim demands `body = None`
after the call, yet the stale value survives. -/
theorem claim_C10_counterexample :
    (Issues cfgC10 (fun _ => ⟨200, "[]"⟩) 9).state.body = some "x" ∧
    accessTokenBody cfgC10.gToken = none ∧
    some "x" ≠ (none : Option String) :=
  ⟨rfl, rfl, by decide⟩

/-- C10 amended: every accessor call that passes its required-field
validation overwrites `body` (to the form-encoded access-token string when
`gToken` is non-empty, else `None`) and leaves every other configuration
field unchanged — the final state is exactly the input record with only
`body` replaced; a call that fails validation raises before the assignment
and leaves the whole configuration unchanged. -/
theorem claim_C10_amended (t : GiteeTransport) (server : Nat → HTTPResponse)
    (fuel : Nat) (cwd : String) :
    ((strFieldMissing t.gOwner || strFieldMissing t.gProject) = false →
      (Issues t server fuel).state = { t with body := accessTokenBody t.gToken } ∧
      (Milestones t server fuel).state = { t with body := accessTokenBody t.gToken } ∧
      (Releases t server fuel).state = { t with body := accessTokenBody t.gToken } ∧
      (Tags t server fuel).state = { t with body := accessTokenBody t.gToken } ∧
      (Branches t server fuel).state = { t with body := accessTokenBody t.gToken }) ∧
    ((strFieldMissing t.gOwner || strFieldMissing t.gProject ||
        strFieldMissing t.gSHA) = false →
      (Files t server fuel).state = { t with body := accessTokenBody t.gToken } ∧
      (GetFile t server fuel cwd).state = { t with body := accessTokenBody t.gToken }) ∧
    (strFieldMissing t.gToken = false →
      (Repositories t server fuel).state = { t with body := accessTokenBody t.gToken }) ∧
    ((strFieldMissing t.gOwner || strFieldMissing t.gProject) = true →
      (Issues t server fuel).state = t ∧
      (Milestones t server fuel).state = t ∧
      (Releases t server fuel).state = t ∧
      (Tags t server fuel).state = t ∧
      (Branches t server fuel).state = t) ∧
    ((strFieldMissing t.gOwner || strFieldMissing t.gProject ||
        strFieldMissing t.gSHA) = true →
      (Files t server fuel).state = t ∧
      (GetFile t server fuel cwd).state = t) ∧
    (strFieldMissing t.gToken = true →
      (Repositories t server fuel).state = t) := by
  refine ⟨fun h => ?_, fun h => ?_, fun h => ?_, fun h => ?_, fun h => ?_, fun h => ?_⟩
  · exact ⟨by simp [Issues, h], by simp [Milestones, h], by simp [Releases, h],
      by simp [Tags, h], by simp [Branches, h]⟩
  · constructor
    · simp [Files, h]
    · simp only [GetFile, h, Bool.false_eq_true, if_neg, not_false_iff]
      cases hres : (SendAPIRequest { t with body := accessTokenBody t.gToken }
          (projectFileURL { t with body := accessTokenBody t.gToken }) "GET" server
          fuel).result with
      | ok pf =>
        simp only [hres]
        cases hd : (isJSONDict pf && dictHasKey pf "content" && dictHasKey pf "size") with
        | true =>
          simp only [hd]
          cases hc : (dictGet pf "content").getD JSON.null with
          | str c =>
            simp only [hc]
            cases hb : b64decode c with
            | some bytes =>
              simp only [hb]
              cases hu : unicodeEscape bytes <;> simp [hu]
            | none => simp
          | null => simp
          | bool b => simp
          | num lex => simp
          | arr xs => simp
          | obj fs => simp
        | false => simp [hd]
      | exn e => simp [hres]
      | outOfFuel => simp [hres]
  · simp [Repositories, h]
  · exact ⟨by simp [Issues, h], by simp [Milestones, h], by simp [Releases, h],
      by simp [Tags, h], by simp [Branches, h]⟩
  · exact ⟨by simp [Files, h], by simp [GetFile, h]⟩
  · simp [Repositories, h]

/-- Witness for C10 (amended): with a fully set configuration, `Issues`
rewrites `body` to the token parameter and nothing else; with `cfgC10`
(empty owner), the state is unchanged. -/
theorem claim_C10_amended_witness :
    (Issues cfgFull (fun _ => ⟨200, "[]"⟩) 9).state =
      { cfgFull with body := accessTokenBody cfgFull.gToken } ∧
    (Issues cfgC10 (fun _ => ⟨200, "[]"⟩) 9).state = cfgC10 := by
  constructor
  · exact ((claim_C10_amended cfgFull (fun _ => ⟨200, "[]"⟩) 9 "/tmp").1 (by decide)).1
  · exact ((claim_C10_amended cfgC10 (fun _ => ⟨200, "[]"⟩) 9 "/tmp").2.2.2.1 (by decide)).1

def srvC1 : Nat → HTTPResponse :=
  fun _ => ⟨404, "\x7b\"code\": 1, \"message\": \"m\"\x7d"⟩

/-- C1 counterexample: on a 4xx first response with a well-formed error body,
exactly one request is issued, but the value returned to the caller is the
empty dict `responseJSON` was initialised with — NOT the decoded body of the
4xx response, which is parsed only for a debug log line. -/
theorem claim_C1_counterexample :
    (SendAPIRequest defaultTransport "u" "GET" srvC1 9).requests = 1 ∧
    (SendAPIRequest defaultTransport "u" "GET" srvC1 9).result = .ok (JSON.obj []) ∧
    ParseJSON (.str "\x7b\"code\": 1, \"message\": \"m\"\x7d") =
      JSON.obj [("code", JSON.num "1"), ("message", JSON.str "m")] ∧
    JSON.obj [] ≠ JSON.obj [("code", JSON.num "1"), ("message", JSON.str "m")] :=
  ⟨rfl, rfl, rfl, by simp⟩

/-- C1 amended: on a 4xx first response, exactly one HTTP request is issued
(no retries, no sleeps) and the empty mapping is returned without raising;
the decoded 4xx body only feeds the logs.  Proviso forced by the code: when
the body contains both substrings "code" and "message" but its JSON parse is
not a mapping with a "message" key, the logging lookup `msgDict["message"]`
itself raises (KeyError/TypeError) instead. -/
theorem claim_C1_amended (t : GiteeTransport) (url reqType : String)
    (server : Nat → HTTPResponse) (fuel : Nat)
    (hrt : reqType = "GET" ∨ reqType = "POST")
    (h4 : 400 ≤ (server 0).status_code ∧ (server 0).status_code < 500)
    (hlog : logServerMessage (server 0).text = Except.ok ())
    (hf : 0 < fuel) :
    SendAPIRequest t url reqType server fuel =
      { result := .ok (JSON.obj []), requests := 1, sleeps := [] } := by
  obtain ⟨f, rfl⟩ : ∃ f, fuel = f + 1 := ⟨fuel - 1, by omega⟩
  rcases hrt with h | h <;> subst h <;> simp [SendAPIRequest, sendLoop, h4, hlog] <;> decide

/-- Witness for C1 (amended): a 404 whose body has no "code"/"message" pair. -/
theorem claim_C1_amended_witness :
    SendAPIRequest defaultTransport "u" "GET" (fun _ => ⟨404, "err"⟩) 9 =
      { result := .ok (JSON.obj []), requests := 1, sleeps := [] } :=
  claim_C1_amended defaultTransport "u" "GET" (fun _ => ⟨404, "err"⟩) 9
    (Or.inl rfl) (by decide) rfl (by decide)

/-- Retry loop under a server that answers 5xx to every request: starting at
`counter` with `n = retry - counter` retries left, the loop issues `n + 1`
further requests, sleeps `pause` seconds `n` more times, and ends with the
current `responseJSON` (never overwritten on the 5xx path). -/
theorem sendLoop_all_5xx (t : GiteeTransport) (reqType : String)
    (server : Nat → HTTPResponse)
    (hrt : (reqType = "GET" || reqType = "POST") = true)
    (h5 : ∀ k, 500 ≤ (server k).status_code ∧ (server k).status_code < 600)
    (hlog : ∀ k, logServerMessage (server k).text = Except.ok ()) :
    ∀ n counter reqs sleeps respJSON fuel, t.retry - counter = n →
      counter ≤ t.retry → n < fuel →
      sendLoop t reqType server counter reqs sleeps respJSON fuel =
        { result := .ok respJSON, requests := reqs + n + 1,
          sleeps := sleeps ++ List.replicate n t.pause } := by
  intro n
  induction n with
  | zero =>
    intro counter reqs sleeps respJSON fuel hn hc hf
    obtain ⟨f, rfl⟩ : ∃ f, fuel = f + 1 := ⟨fuel - 1, by omega⟩
    have h4 : ¬(400 ≤ (server reqs).status_code ∧ (server reqs).status_code < 500) := by
      have := h5 reqs; omega
    have hno : ¬(counter + 1 ≤ t.retry) := by omega
    simp [sendLoop, hrt, h4, h5 reqs, hlog reqs, hno]
  | succ n ih =>
    intro counter reqs sleeps respJSON fuel hn hc hf
    obtain ⟨f, rfl⟩ : ∃ f, fuel = f + 1 := ⟨fuel - 1, by omega⟩
    have h4 : ¬(400 ≤ (server reqs).status_code ∧ (server reqs).status_code < 500) := by
      have := h5 reqs; omega
    have hyes : counter + 1 ≤ t.retry := by omega
    have ihres := ih (counter + 1) (reqs + 1) (sleeps ++ [t.pause]) respJSON f
      (by omega) (by omega) (by omega)
    simp only [sendLoop, hrt, if_true, h4, if_neg, not_false_iff, h5 reqs, and_self,
      if_pos, hlog reqs, hyes]
    rw [ihres]
    refine congrArg₂ (fun a b => SendOutcome.mk (.ok respJSON) a b) (by omega) ?_
    simp [List.append_assoc, List.replicate_succ]

/-- C2 amended: when every HTTP attempt gets a 5xx status, `SendAPIRequest`
with retry budget `N = retry` issues exactly `N + 1` requests with a sleep of
`pause` seconds recorded between consecutive attempts (none after the last),
and returns the empty mapping; with `retry = 0` that is one request and no
sleep.  Proviso forced by the code: each 5xx body containing both substrings
"code" and "message" must parse to a mapping with a "message" key, otherwise
the logging lookup raises (see the counterexample). -/
theorem claim_C2_amended (t : GiteeTransport) (url reqType : String)
    (server : Nat → HTTPResponse) (fuel : Nat)
    (hrt : reqType = "GET" ∨ reqType = "POST")
    (h5 : ∀ k, 500 ≤ (server k).status_code ∧ (server k).status_code < 600)
    (hlog : ∀ k, logServerMessage (server k).text = Except.ok ())
    (hf : t.retry < fuel) :
    SendAPIRequest t url reqType server fuel =
      { result := .ok (JSON.obj []), requests := t.retry + 1,
        sleeps := List.replicate t.retry t.pause } := by
  have hb : (reqType = "GET" || reqType = "POST") = true := by
    rcases hrt with h | h <;> simp [h]
  have hup : (pyUpper reqType = "GET" || pyUpper reqType = "POST") = true := by
    rcases hrt with h | h <;> subst h <;> decide
  have hl := sendLoop_all_5xx t reqType server hb h5 hlog t.retry 0 0 [] (JSON.obj [])
    fuel (by omega) (by omega) hf
  simp only [SendAPIRequest, hup, if_true]
  simpa using hl

def cfgRetry0 : GiteeTransport := { defaultTransport with retry := 0 }

/-- C2 counterexample: with `retry = 0` and a single 5xx response whose body
contains the substrings "code" and "message" but is not JSON, the logging
lookup `errMsgDict["message"]` raises `KeyError` out of `SendAPIRequest`
instead of the claimed empty-mapping return. -/
theorem claim_C2_counterexample :
    (SendAPIRequest cfgRetry0 "u" "GET" (fun _ => ⟨500, "code message"⟩) 9).result =
      .exn (.keyError "message") ∧
    (SendAPIRequest cfgRetry0 "u" "GET" (fun _ => ⟨500, "code message"⟩) 9).requests = 1 ∧
    PyResult.exn (PyErr.keyError "message") ≠ PyResult.ok (JSON.obj []) :=
  ⟨rfl, rfl, by simp⟩

/-- Witness for C2 (amended): default retry budget 3, constant 500 server:
four requests, three sleeps of 5 seconds, empty dict returned. -/
theorem claim_C2_amended_witness :
    SendAPIRequest defaultTransport "u" "GET" (fun _ => ⟨500, "boom"⟩) 9 =
      { result := .ok (JSON.obj []), requests := 4, sleeps := [5, 5, 5] } := by
  have h := claim_C2_amended defaultTransport "u" "GET" (fun _ => ⟨500, "boom"⟩) 9
    (Or.inl rfl)
    (fun _ => ⟨(by norm_num : (500 : ℕ) ≤ 500), (by norm_num : (500 : ℕ) < 600)⟩)
    (fun _ => rfl) (by norm_num : (3 : ℕ) < 9)
  simpa using h

/-- C6 counterexample: a transport result with no `len` (here JSON `null`,
e.g. a 200 response with body "null") makes `Issues` raise `TypeError` at
`count = len(issues)` — which runs BEFORE the `isinstance(..., list)` guard —
instead of returning the empty list the claim promises. -/
theorem claim_C6_counterexample :
    ParseJSON (.str "null") = JSON.null ∧
    (Issues cfgFull (fun _ => ⟨200, "null"⟩) 9).result =
      .exn (.typeError "object has no len") ∧
    PyResult.exn (PyErr.typeError "object has no len") ≠ PyResult.ok (JSON.arr []) :=
  ⟨rfl, rfl, by simp⟩

/-- C6 amended: when the transport result is not of the expected non-empty
shape, `Files` returns the empty dict (its shape test precedes any `len`),
`GetFile` returns the empty string, and each list accessor returns the empty
list provided the transport result supports `len` (a mapping, sequence or
string); a transport result that is `None`, a number or a boolean makes the
list accessors raise `TypeError` at `count = len(...)` instead of returning. -/
theorem claim_C6_amended (t : GiteeTransport) (server : Nat → HTTPResponse)
    (fuel : Nat) (cwd : String) (j : JSON) :
    ((strFieldMissing t.gOwner || strFieldMissing t.gProject ||
        strFieldMissing t.gSHA) = false →
      ((SendAPIRequest { t with body := accessTokenBody t.gToken }
          (projectFilesURL { t with body := accessTokenBody t.gToken }) "GET" server
          fuel).result = .ok j →
        (isJSONDict j && dictHasKey j "tree") = false →
        (Files t server fuel).result = .ok (JSON.obj [])) ∧
      ((SendAPIRequest { t with body := accessTokenBody t.gToken }
          (projectFileURL { t with body := accessTokenBody t.gToken }) "GET" server
          fuel).result = .ok j →
        (isJSONDict j && dictHasKey j "content" && dictHasKey j "size") = false →
        (GetFile t server fuel cwd).result = .ok "")) ∧
    ((strFieldMissing t.gOwner || strFieldMissing t.gProject) = false →
      ((SendAPIRequest { t with body := accessTokenBody t.gToken }
          (issuesURL { t with body := accessTokenBody t.gToken }) "GET" server
          fuel).result = .ok j →
        (pyLen j = none →
          (Issues t server fuel).result = .exn (.typeError "object has no len")) ∧
        (∀ n, pyLen j = some n → (isJSONList j && decide (n ≠ 0)) = false →
          (Issues t server fuel).result = .ok (JSON.arr []))) ∧
      ((SendAPIRequest { t with body := accessTokenBody t.gToken }
          (milestonesURL { t with body := accessTokenBody t.gToken }) "GET" server
          fuel).result = .ok j →
        (pyLen j = none →
          (Milestones t server fuel).result = .exn (.typeError "object has no len")) ∧
        (∀ n, pyLen j = some n → (isJSONList j && decide (n ≠ 0)) = false →
          (Milestones t server fuel).result = .ok (JSON.arr []))) ∧
      ((SendAPIRequest { t with body := accessTokenBody t.gToken }
          (releasesURL { t with body := accessTokenBody t.gToken }) "GET" server
          fuel).result = .ok j →
        (pyLen j = none →
          (Releases t server fuel).result = .exn (.typeError "object has no len")) ∧
        (∀ n, pyLen j = some n → (isJSONList j && decide (n ≠ 0)) = false →
          (Releases t server fuel).result = .ok (JSON.arr []))) ∧
      ((SendAPIRequest { t with body := accessTokenBody t.gToken }
          (tagsURL { t with body := accessTokenBody t.gToken }) "GET" server
          fuel).result = .ok j →
        (pyLen j = none →
          (Tags t server fuel).result = .exn (.typeError "object has no len")) ∧
        (∀ n, pyLen j = some n → (isJSONList j && decide (n ≠ 0)) = false →
          (Tags t server fuel).result = .ok (JSON.arr []))) ∧
      ((SendAPIRequest { t with body := accessTokenBody t.gToken }
          (branchesURL { t with body := accessTokenBody t.gToken }) "GET" server
          fuel).result = .ok j →
        (pyLen j = none →
          (Branches t server fuel).result = .exn (.typeError "object has no len")) ∧
        (∀ n, pyLen j = some n → (isJSONList j && decide (n ≠ 0)) = false →
          (Branches t server fuel).result = .ok (JSON.arr [])))) ∧
    (strFieldMissing t.gToken = false →
      (SendAPIRequest { t with body := accessTokenBody t.gToken }
          (reposURL { t with body := accessTokenBody t.gToken }) "GET" server
          fuel).result = .ok j →
      (pyLen j = none →
        (Repositories t server fuel).result = .exn (.typeError "object has no len")) ∧
      (∀ n, pyLen j = some n → (isJSONList j && decide (n ≠ 0)) = false →
        (Repositories t server fuel).result = .ok (JSON.arr []))) := by
  refine ⟨fun hval => ⟨fun hsend hsh => ?_, fun hsend hsh => ?_⟩,
    fun hval => ⟨fun hsend => ⟨fun hlen => ?_, fun n hlen hc => ?_⟩,
      fun hsend => ⟨fun hlen => ?_, fun n hlen hc => ?_⟩,
      fun hsend => ⟨fun hlen => ?_, fun n hlen hc => ?_⟩,
      fun hsend => ⟨fun hlen => ?_, fun n hlen hc => ?_⟩,
      fun hsend => ⟨fun hlen => ?_, fun n hlen hc => ?_⟩⟩,
    fun hval hsend => ⟨fun hlen => ?_, fun n hlen hc => ?_⟩⟩
  · simp [Files, hval, hsend, hsh]
  · simp [GetFile, hval, hsend, hsh]
  · simp [Issues, hval, hsend, listPostProcess, hlen]
  · simp [Issues, hval, hsend, listPostProcess, hlen, hc]
    intro h1 h2
    simp [h1, h2] at hc
  · simp [Milestones, hval, hsend, listPostProcess, hlen]
  · simp [Milestones, hval, hsend, listPostProcess, hlen, hc]
    intro h1 h2
    simp [h1, h2] at hc
  · simp [Releases, hval, hsend, listPostProcess, hlen]
  · simp [Releases, hval, hsend, listPostProcess, hlen, hc]
    intro h1 h2
    simp [h1, h2] at hc
  · simp [Tags, hval, hsend, listPostProcess, hlen]
  · simp [Tags, hval, hsend, listPostProcess, hlen, hc]
    intro h1 h2
    simp [h1, h2] at hc
  · simp [Branches, hval, hsend, listPostProcess, hlen]
  · simp [Branches, hval, hsend, listPostProcess, hlen, hc]
    intro h1 h2
    simp [h1, h2] at hc
  · simp [Repositories, hval, hsend, listPostProcess, hlen]
  · simp [Repositories, hval, hsend, listPostProcess, hlen, hc]
    intro h1 h2
    simp [h1, h2] at hc

/-- Witness for C6 (amended): a dict-without-"tree" transport result gives
`Files = empty dict`, the same dict gives `Issues = empty list` (it is sized
but not a list), and `GetFile` on it gives the empty string. -/
theorem claim_C6_amended_witness :
    (Files cfgFull (fun _ => ⟨200, "\x7b\"a\": 1\x7d"⟩) 9).result = .ok (JSON.obj []) ∧
    (Issues cfgFull (fun _ => ⟨200, "\x7b\"a\": 1\x7d"⟩) 9).result = .ok (JSON.arr []) ∧
    (GetFile cfgFull (fun _ => ⟨200, "\x7b\"a\": 1\x7d"⟩) 9 "/tmp").result = .ok "" := by
  have h := claim_C6_amended cfgFull (fun _ => ⟨200, "\x7b\"a\": 1\x7d"⟩) 9 "/tmp"
    (JSON.obj [("a", JSON.num "1")])
  refine ⟨(h.1 (by decide)).1 rfl (by decide), ?_, (h.1 (by decide)).2 rfl (by decide)⟩
  exact ((h.2.1 (by decide)).1 rfl).2 1 rfl (by decide)

def srvC7 : Nat → HTTPResponse :=
  fun _ => ⟨200, "\x7b\"content\": \"XHg=\", \"size\": 2\x7d"⟩

/-- C7 counterexample: the transport result is a mapping with "content" (a
valid base64 payload: "XHg=" decodes to the two bytes `\` `x`) and "size",
yet `GetFile` does not return the decoded text: the second decoding step,
`.decode('unicode_escape')`, hits the truncated `\xhh` escape and raises
`UnicodeDecodeError`; nothing is written even though `save` is set. -/
theorem claim_C7_counterexample :
    b64decode "XHg=" = some [92, 120] ∧
    cfgFull.save = true ∧
    (GetFile cfgFull srvC7 9 "/tmp").result = .exn (.unicodeDecodeError "truncated escape") ∧
    (GetFile cfgFull srvC7 9 "/tmp").writes = [] :=
  ⟨by decide, rfl, rfl, rfl⟩

/-- C7 amended: when the transport result is a mapping with a "content" key
holding a valid base64 payload whose decoded bytes are also a valid
unicode-escape sequence, and a "size" key, `GetFile` returns the decoded
text, and with the `save` flag set it records exactly one file write, named
after the blob id `gSHA`, whose content equals the returned text (no write
without the flag); when the unicode-escape decoding fails, `GetFile` raises
instead (see the counterexample). -/
theorem claim_C7_amended (t : GiteeTransport) (server : Nat → HTTPResponse)
    (fuel : Nat) (cwd : String) (pf : JSON) (c : String) (bytes : List Nat) (txt : String)
    (hval : (strFieldMissing t.gOwner || strFieldMissing t.gProject ||
      strFieldMissing t.gSHA) = false)
    (hsend : (SendAPIRequest { t with body := accessTokenBody t.gToken }
        (projectFileURL { t with body := accessTokenBody t.gToken }) "GET" server
        fuel).result = .ok pf)
    (hdict : isJSONDict pf = true)
    (hc : dictGet pf "content" = some (JSON.str c))
    (hsz : dictHasKey pf "size" = true)
    (hb : b64decode c = some bytes)
    (hu : unicodeEscape bytes = some txt) :
    (GetFile t server fuel cwd).result = .ok txt ∧
    (GetFile t server fuel cwd).writes =
      (if t.save then [(pyPathJoin cwd (pyFStr t.gSHA), txt)] else []) := by
  have hkc : dictHasKey pf "content" = true := by simp [dictHasKey, hc]
  constructor <;> simp [GetFile, hval, hsend, hdict, hkc, hsz, hc, hb, hu]

def srvC7ok : Nat → HTTPResponse :=
  fun _ => ⟨200, "\x7b\"content\": \"aGVsbG8=\", \"size\": 5\x7d"⟩

/-- Witness for C7 (amended): "aGVsbG8=" decodes to "hello"; with `save` set
the write is recorded under the blob id. -/
theorem claim_C7_amended_witness :
    (GetFile cfgFull srvC7ok 9 "/tmp").result = .ok "hello" ∧
    (GetFile cfgFull srvC7ok 9 "/tmp").writes =
      (if cfgFull.save then [(pyPathJoin "/tmp" (pyFStr cfgFull.gSHA), "hello")] else []) :=
  claim_C7_amended cfgFull srvC7ok 9 "/tmp"
    (JSON.obj [("content", JSON.str "aGVsbG8="), ("size", JSON.num "5")])
    "aGVsbG8=" [104, 101, 108, 108, 111] "hello"
    (by decide) rfl rfl rfl rfl (by decide) (by decide)
